import Mathlib

/-!
Verification development for the football-game-generator attendance-and-capacity
engine.  The definitions below are a shallow embedding of the backend services
(`gameService.ts`, `attendanceService.ts`, `guestService.ts`) and of the relevant
request handlers in `server.ts`.  The relational tables (`games`, `attendances`,
`guest_players`, `profiles` from `schema.sql`) are modelled as lists of rows held
in a `Db` value; `CURRENT_TIMESTAMP` is modelled by a logical clock `Db.now`
whose value is stamped onto written rows and bumped on every row write, and
`gen_random_uuid()` by the fresh-id counter `Db.nextId`.  Each service method
runs one transaction: it either returns the updated `Db` (commit) or an error
with the original `Db` untouched (rollback).
-/

namespace FootballGen

/-- Lifecycle state of a game row (`games.state` in `schema.sql`). -/
inductive GameState
  | OPEN
  | CLOSED
  | ARCHIVED
deriving DecidableEq

/-- Player attendance status (`attendances.status` in `schema.sql`). -/
inductive AttendanceStatus
  | CONFIRMED
  | WAITING
  | OUT
  | LATE_CONFIRMED
deriving DecidableEq

/-- Guest slot status (`guest_players.status` in `schema.sql`). -/
inductive GuestStatus
  | CONFIRMED
  | WAITING
deriving DecidableEq

/-- Field position (`'GK' | 'DEF' | 'MID' | 'ATT'`). -/
inductive Position
  | GK
  | DEF
  | MID
  | ATT
deriving DecidableEq

/-- A row of the `games` table. -/
structure Game where
  id : Nat
  date : String
  location : String
  markdown : String
  state : GameState
  createdBy : String
  createdAt : Nat
  updatedAt : Nat
deriving DecidableEq

/-- A row of the `attendances` table (unique on `(game_id, player_id)`). -/
structure Attendance where
  id : Nat
  gameId : Nat
  playerId : String
  status : AttendanceStatus
  createdAt : Nat
  updatedAt : Nat
deriving DecidableEq

/-- A row of the `profiles` table (the columns the roster queries select). -/
structure Profile where
  userId : String
  firstName : String
  lastName : String
  nickname : String
  rating : Nat
  primaryPosition : Position
  secondaryPosition : Option Position
deriving DecidableEq

/-- A row of the `guest_players` table. -/
structure GuestPlayer where
  id : Nat
  gameId : Nat
  inviterId : String
  fullName : String
  rating : Nat
  primaryPosition : Position
  secondaryPosition : Option Position
  status : GuestStatus
  createdAt : Nat
  updatedAt : Nat
deriving DecidableEq

/-- The persistent database state. -/
structure Db where
  games : List Game
  attendances : List Attendance
  guests : List GuestPlayer
  profiles : List Profile
  nextId : Nat
  now : Nat
deriving DecidableEq

/-- Body of `POST /api/admin/game` (`CreateGameRequest` in `types/index.ts`). -/
structure CreateGameRequest where
  date : String
  location : String
  markdown : String
deriving DecidableEq

/-- Body of `POST /api/games/:id/guests` (`CreateGuestPlayerRequest`). -/
structure CreateGuestPlayerRequest where
  fullName : String
  selfRating : Nat
  primaryPosition : Position
  secondaryPosition : Option Position
deriving DecidableEq

/-- Domain errors thrown by the services; each constructor stands for one
`throw new Error(message)` site in the source. -/
inductive DomainError
  | gameNotFound
  | gameNotOpenForAttendance
  | gameNotOpenForGuests
  | onlyRegisteredPlayersCanInvite
  | guestNotFound
  | cannotDeleteGuestFromClosedGame
deriving DecidableEq

/-- The stable error message attached to each `throw new Error(...)` site,
which `server.ts` matches on to classify errors. -/
def DomainError.message : DomainError → String
  | .gameNotFound => "Game not found"
  | .gameNotOpenForAttendance => "Game is not open for attendance changes"
  | .gameNotOpenForGuests => "Game is not open for guest registration"
  | .onlyRegisteredPlayersCanInvite => "Only registered players can invite guests"
  | .guestNotFound => "Guest not found"
  | .cannotDeleteGuestFromClosedGame =>
      "Cannot delete guest from closed game without team rebalancing"

/-- HTTP-level failure classes produced by `server.ts` (400/403/404/409/500). -/
inductive ApiFailure
  | validation
  | forbidden
  | notFound
  | conflict
  | internalError
deriving DecidableEq

/-- `SELECT id, state FROM games WHERE id = $1` (first matching row). -/
def findGame (db : Db) (gameId : Nat) : Option Game :=
  db.games.find? fun g => decide (g.id = gameId)

/-- `SELECT status FROM attendances WHERE game_id = $1 AND player_id = $2`. -/
def findAttendance (db : Db) (gameId : Nat) (playerId : String) : Option Attendance :=
  db.attendances.find? fun a => decide (a.gameId = gameId ∧ a.playerId = playerId)

/-- `SELECT * FROM guest_players WHERE id = $1` (first matching row). -/
def findGuest (db : Db) (guestId : Nat) : Option GuestPlayer :=
  db.guests.find? fun g => decide (g.id = guestId)

/-- `JOIN profiles p ON ... = p.user_id` lookup of one profile row. -/
def findProfile (db : Db) (userId : String) : Option Profile :=
  db.profiles.find? fun p => decide (p.userId = userId)

/-- Embedding of `GameService.createGame` (`gameService.ts`): inside a single
transaction, first `UPDATE games SET state = 'ARCHIVED' WHERE state = 'OPEN'`,
then `INSERT INTO games ...` where `schema.sql` defaults `state` to `'OPEN'`.
Returns the new state and the inserted row. -/
def createGame (db : Db) (adminId : String) (req : CreateGameRequest) : Db × Game :=
  let archived := db.games.map fun g =>
    if g.state = GameState.OPEN then
      { g with state := GameState.ARCHIVED, updatedAt := db.now }
    else g
  let newGame : Game :=
    { id := db.nextId, date := req.date, location := req.location,
      markdown := req.markdown, state := GameState.OPEN, createdBy := adminId,
      createdAt := db.now, updatedAt := db.now }
  ({ db with
     games := archived ++ [newGame]
     nextId := db.nextId + 1
     now := db.now + 1 }, newGame)

/-- `GameService.getOpenGame`: most recently created game with state OPEN. -/
def getOpenGame (db : Db) : Option Game :=
  (db.games.filter fun g => decide (g.state = GameState.OPEN)).getLast?

/-- `AttendanceService.MAX_CONFIRMED_PLAYERS`. -/
def MAX_CONFIRMED_PLAYERS : Nat := 24

/-- `SELECT COUNT(*) FROM attendances WHERE game_id = $1 AND status = 'CONFIRMED'`
(the count used by `handleConfirmedRequest`; note it counts only players whose
status is exactly `CONFIRMED`). -/
def confirmedPlayerCount (db : Db) (gameId : Nat) : Nat :=
  (db.attendances.filter fun a =>
    decide (a.gameId = gameId ∧ a.status = AttendanceStatus.CONFIRMED)).length

/-- Embedding of `AttendanceService.upsertAttendance`:
`INSERT ... ON CONFLICT (game_id, player_id) DO UPDATE SET status, updated_at`. -/
def upsertAttendance (db : Db) (gameId : Nat) (playerId : String)
    (status : AttendanceStatus) : Db :=
  if db.attendances.any fun a => decide (a.gameId = gameId ∧ a.playerId = playerId) then
    { db with
      attendances := db.attendances.map fun a =>
        if a.gameId = gameId ∧ a.playerId = playerId then
          { a with status := status
                   updatedAt := db.now }
        else a
      now := db.now + 1 }
  else
    { db with
      attendances := db.attendances ++
        [{ id := db.nextId, gameId := gameId, playerId := playerId,
           status := status, createdAt := db.now, updatedAt := db.now }]
      nextId := db.nextId + 1
      now := db.now + 1 }

/-- Embedding of `AttendanceService.handleConfirmedRequest`. -/
def handleConfirmedRequest (db : Db) (gameId : Nat) (userId : String)
    (existingStatus : Option AttendanceStatus) : Db :=
  let currentConfirmed := confirmedPlayerCount db gameId
  match existingStatus with
  | some AttendanceStatus.CONFIRMED => db
  | some _ => upsertAttendance db gameId userId AttendanceStatus.CONFIRMED
  | none =>
      if MAX_CONFIRMED_PLAYERS ≤ currentConfirmed then
        upsertAttendance db gameId userId AttendanceStatus.WAITING
      else
        upsertAttendance db gameId userId AttendanceStatus.CONFIRMED

/-- Embedding of `AttendanceService.handleWaitingRequest`. -/
def handleWaitingRequest (db : Db) (gameId : Nat) (userId : String)
    (existingStatus : Option AttendanceStatus) : Db :=
  match existingStatus with
  | some AttendanceStatus.WAITING => db
  | _ => upsertAttendance db gameId userId AttendanceStatus.WAITING

/-- Embedding of `AttendanceService.handleOutRequest` (note: it only upserts
`OUT`; it performs no guest-slot query and produces no flag). -/
def handleOutRequest (db : Db) (gameId : Nat) (userId : String)
    (existingStatus : Option AttendanceStatus) : Db :=
  match existingStatus with
  | some AttendanceStatus.OUT => db
  | _ => upsertAttendance db gameId userId AttendanceStatus.OUT

/-- Embedding of `AttendanceService.handleLateConfirmedRequest`. -/
def handleLateConfirmedRequest (db : Db) (gameId : Nat) (userId : String)
    (existingStatus : Option AttendanceStatus) : Db :=
  match existingStatus with
  | some AttendanceStatus.LATE_CONFIRMED => db
  | _ => upsertAttendance db gameId userId AttendanceStatus.LATE_CONFIRMED

/-- One roster entry of `AttendanceService.getRoster`: an attendance row joined
with the player profile. -/
structure AttendanceWithPlayer where
  record : Attendance
  player : Profile
deriving DecidableEq

/-- The value returned by `AttendanceService.getRoster` and sent by
`GET /api/game/:id/attendance` and `POST /api/game/:id/attendance`: only the
two player buckets, with no guest data. -/
structure GameRoster where
  confirmed : List AttendanceWithPlayer
  waiting : List AttendanceWithPlayer
deriving DecidableEq

/-- Comparison used for `ORDER BY a.created_at ASC`. -/
def attCreatedLe (a b : Attendance) : Prop := a.createdAt ≤ b.createdAt

instance : DecidableRel attCreatedLe := fun a b =>
  inferInstanceAs (Decidable (a.createdAt ≤ b.createdAt))

/-- The sorted row set of the roster queries: attendances of the game whose
status is in `('CONFIRMED', 'WAITING', 'LATE_CONFIRMED')`, ordered by
`created_at ASC`. -/
def rosterRows (db : Db) (gameId : Nat) : List Attendance :=
  List.insertionSort attCreatedLe
    (db.attendances.filter fun a =>
      decide (a.gameId = gameId ∧
        (a.status = AttendanceStatus.CONFIRMED ∨ a.status = AttendanceStatus.WAITING ∨
         a.status = AttendanceStatus.LATE_CONFIRMED)))

/-- The `JOIN profiles` step: a row with no matching profile produces no
output row (inner join). -/
def joinPlayers (db : Db) (rows : List Attendance) : List AttendanceWithPlayer :=
  rows.filterMap fun a => (findProfile db a.playerId).map fun p => ⟨a, p⟩

/-- Embedding of `AttendanceService.getRoster`: the joined, ordered rows split
into the `confirmed` (CONFIRMED or LATE_CONFIRMED) and `waiting` buckets. -/
def getRoster (db : Db) (gameId : Nat) : GameRoster :=
  let rows := joinPlayers db (rosterRows db gameId)
  { confirmed := rows.filter fun r =>
      decide (r.record.status = AttendanceStatus.CONFIRMED ∨
              r.record.status = AttendanceStatus.LATE_CONFIRMED)
    waiting := rows.filter fun r => decide (r.record.status = AttendanceStatus.WAITING) }

/-- Embedding of `AttendanceService.registerAttendance`: one transaction that
checks the game exists and is OPEN, reads the caller's current status,
dispatches on the requested action and returns the updated roster.  An error
means the transaction rolled back, so no updated state is produced. -/
def registerAttendance (db : Db) (userId : String) (gameId : Nat)
    (action : AttendanceStatus) : Except DomainError (Db × GameRoster) :=
  match findGame db gameId with
  | none => .error .gameNotFound
  | some g =>
    if g.state ≠ GameState.OPEN then .error .gameNotOpenForAttendance
    else
      let existingStatus := (findAttendance db gameId userId).map (·.status)
      let db2 :=
        match action with
        | .CONFIRMED => handleConfirmedRequest db gameId userId existingStatus
        | .WAITING => handleWaitingRequest db gameId userId existingStatus
        | .OUT => handleOutRequest db gameId userId existingStatus
        | .LATE_CONFIRMED => handleLateConfirmedRequest db gameId userId existingStatus
      .ok (db2, getRoster db2 gameId)

/-- `GuestService.MAX_TOTAL_PLAYERS` (combined limit for players + guests). -/
def MAX_TOTAL_PLAYERS : Nat := 24

/-- The combined confirmed count computed inside `GuestService.createGuest`:
`COUNT(attendances WHERE status IN ('CONFIRMED','LATE_CONFIRMED')) +
COUNT(guest_players WHERE status = 'CONFIRMED')`. -/
def combinedConfirmedCount (db : Db) (gameId : Nat) : Nat :=
  (db.attendances.filter fun a =>
    decide (a.gameId = gameId ∧
      (a.status = AttendanceStatus.CONFIRMED ∨
       a.status = AttendanceStatus.LATE_CONFIRMED))).length +
  (db.guests.filter fun g =>
    decide (g.gameId = gameId ∧ g.status = GuestStatus.CONFIRMED)).length

/-- One guest roster entry of `GuestService.getRosterWithGuests`: a guest row
joined with the inviter profile. -/
structure GuestWithInviter where
  guest : GuestPlayer
  inviter : Profile
deriving DecidableEq

/-- The `guests` field of the roster returned by the guest service. -/
structure GuestBuckets where
  confirmed : List GuestWithInviter
  waiting : List GuestWithInviter
deriving DecidableEq

/-- The value returned by `GuestService.createGuest`, `deleteGuest` and
`getRosterWithGuests`: player buckets plus guest buckets. -/
structure GameRosterWithGuests where
  confirmed : List AttendanceWithPlayer
  waiting : List AttendanceWithPlayer
  guests : GuestBuckets
deriving DecidableEq

/-- The text ordering SQL applies to the `inviter_id` column, embedded as the
lexicographic order on the character sequence of the string. -/
def strLt (a b : String) : Prop := a.data < b.data

instance : DecidableRel strLt := fun a b =>
  inferInstanceAs (Decidable (a.data < b.data))

/-- Comparison used for `ORDER BY gp.inviter_id, gp.created_at ASC` in the
guest roster query: inviter id first, creation time second. -/
def guestOrderLe (a b : GuestPlayer) : Prop :=
  strLt a.inviterId b.inviterId ∨
    (a.inviterId = b.inviterId ∧ a.createdAt ≤ b.createdAt)

instance : DecidableRel guestOrderLe := fun a b =>
  inferInstanceAs (Decidable (strLt a.inviterId b.inviterId ∨
    (a.inviterId = b.inviterId ∧ a.createdAt ≤ b.createdAt)))

/-- The sorted guest row set of `getRosterWithGuests`: all guest rows of the
game, ordered by `inviter_id` then `created_at`. -/
def guestRosterRows (db : Db) (gameId : Nat) : List GuestPlayer :=
  List.insertionSort guestOrderLe
    (db.guests.filter fun g => decide (g.gameId = gameId))

/-- The `JOIN profiles` step for guests (inner join on the inviter). -/
def joinInviters (db : Db) (rows : List GuestPlayer) : List GuestWithInviter :=
  rows.filterMap fun g => (findProfile db g.inviterId).map fun p => ⟨g, p⟩

/-- Embedding of `GuestService.getRosterWithGuests`. -/
def getRosterWithGuests (db : Db) (gameId : Nat) : GameRosterWithGuests :=
  let playerRows := joinPlayers db (rosterRows db gameId)
  let guestRows := joinInviters db (guestRosterRows db gameId)
  { confirmed := playerRows.filter fun r =>
      decide (r.record.status = AttendanceStatus.CONFIRMED ∨
              r.record.status = AttendanceStatus.LATE_CONFIRMED)
    waiting := playerRows.filter fun r =>
      decide (r.record.status = AttendanceStatus.WAITING)
    guests :=
      { confirmed := guestRows.filter fun r =>
          decide (r.guest.status = GuestStatus.CONFIRMED)
        waiting := guestRows.filter fun r =>
          decide (r.guest.status = GuestStatus.WAITING) } }

/-- Embedding of `GuestService.createGuest`: one transaction that checks the
game is OPEN, checks the inviter has a non-OUT attendance record, recomputes
the combined confirmed count, and inserts the guest with status `WAITING` when
the count has reached `MAX_TOTAL_PLAYERS` and `CONFIRMED` otherwise. -/
def createGuest (db : Db) (inviterId : String) (gameId : Nat)
    (gd : CreateGuestPlayerRequest) : Except DomainError (Db × GameRosterWithGuests) :=
  match findGame db gameId with
  | none => .error .gameNotFound
  | some g =>
    if g.state ≠ GameState.OPEN then .error .gameNotOpenForGuests
    else
      match findAttendance db gameId inviterId with
      | none => .error .onlyRegisteredPlayersCanInvite
      | some inv =>
        if inv.status = AttendanceStatus.OUT then .error .onlyRegisteredPlayersCanInvite
        else
          let currentConfirmed := combinedConfirmedCount db gameId
          let guestStatus :=
            if MAX_TOTAL_PLAYERS ≤ currentConfirmed then GuestStatus.WAITING
            else GuestStatus.CONFIRMED
          let newGuest : GuestPlayer :=
            { id := db.nextId, gameId := gameId, inviterId := inviterId,
              fullName := gd.fullName, rating := gd.selfRating,
              primaryPosition := gd.primaryPosition,
              secondaryPosition := gd.secondaryPosition, status := guestStatus,
              createdAt := db.now, updatedAt := db.now }
          let db2 := { db with
                       guests := db.guests ++ [newGuest]
                       nextId := db.nextId + 1
                       now := db.now + 1 }
          .ok (db2, getRosterWithGuests db2 gameId)

/-- Embedding of `GuestService.deleteGuest`: loads the guest joined with its
game (a missing game row would make the inner join empty, hence `guestNotFound`),
refuses with the closed-game Conflict error when the game state is `CLOSED`,
and otherwise deletes the row and returns the updated roster. -/
def deleteGuest (db : Db) (guestId : Nat) : Except DomainError (Db × GameRosterWithGuests) :=
  match findGuest db guestId with
  | none => .error .guestNotFound
  | some gu =>
    match findGame db gu.gameId with
    | none => .error .guestNotFound
    | some g =>
      if g.state = GameState.CLOSED then .error .cannotDeleteGuestFromClosedGame
      else
        let db2 := { db with guests := db.guests.filter fun x => decide (x.id ≠ guestId) }
        .ok (db2, getRosterWithGuests db2 gu.gameId)

/-- The per-row field update performed by `GuestService.updateGuest`:
`UPDATE guest_players SET full_name, rating, primary_position,
secondary_position, updated_at WHERE id = $1`. -/
def applyGuestUpdate (gd : CreateGuestPlayerRequest) (now : Nat)
    (x : GuestPlayer) : GuestPlayer :=
  { x with
    fullName := gd.fullName
    rating := gd.selfRating
    primaryPosition := gd.primaryPosition
    secondaryPosition := gd.secondaryPosition
    updatedAt := now }

/-- Embedding of `GuestService.updateGuest`: checks only that the guest exists
(no game-state check of any kind), updates the listed columns of that row and
returns the updated row. -/
def updateGuest (db : Db) (guestId : Nat) (gd : CreateGuestPlayerRequest) :
    Except DomainError (Db × GuestPlayer) :=
  match findGuest db guestId with
  | none => .error .guestNotFound
  | some gu =>
    let db2 := { db with
      guests := db.guests.map fun x =>
        if x.id = guestId then applyGuestUpdate gd db.now x else x
      now := db.now + 1 }
    .ok (db2, applyGuestUpdate gd db.now gu)

/-- `GuestService.getGuestsByInviter`: the caller's guest rows for the game,
ordered by creation time. -/
def getGuestsByInviter (db : Db) (gameId : Nat) (inviterId : String) : List GuestPlayer :=
  List.insertionSort (fun a b => a.createdAt ≤ b.createdAt)
    (db.guests.filter fun g => decide (g.gameId = gameId ∧ g.inviterId = inviterId))

/-- The action strings accepted by `POST /api/game/:id/attendance`
(`validActions` in `server.ts`). -/
def validActions : List String := ["CONFIRMED", "WAITING", "OUT", "LATE_CONFIRMED"]

/-- Parsing of the request's `action` field into the closed status union; the
transport layer rejects anything outside `validActions` with a 400. -/
def parseAction (s : String) : Option AttendanceStatus :=
  if s = "CONFIRMED" then some AttendanceStatus.CONFIRMED
  else if s = "WAITING" then some AttendanceStatus.WAITING
  else if s = "OUT" then some AttendanceStatus.OUT
  else if s = "LATE_CONFIRMED" then some AttendanceStatus.LATE_CONFIRMED
  else none

/-- Error classification done by the `POST /api/game/:id/attendance` handler:
`'Game not found'` becomes 404 NotFound, `'Game is not open for attendance
changes'` becomes 403 Forbidden, anything else 500. -/
def classifyAttendanceError (e : DomainError) : ApiFailure :=
  if e.message = "Game not found" then ApiFailure.notFound
  else if e.message = "Game is not open for attendance changes" then ApiFailure.forbidden
  else ApiFailure.internalError

/-- Error classification done by the guest deletion handler: `'Guest not
found'` becomes 404, the closed-game message becomes 409 Conflict, else 500. -/
def classifyGuestDeleteError (e : DomainError) : ApiFailure :=
  if e.message = "Guest not found" then ApiFailure.notFound
  else if e.message = "Cannot delete guest from closed game without team rebalancing" then
    ApiFailure.conflict
  else ApiFailure.internalError

/-- The JSON body sent by `POST /api/game/:id/attendance` on success.  The
handler executes `res.json(roster)`, so the body is exactly the roster; the
`requiresGuestRemovalDialog` key probed by the frontend
(`useAttendance.ts` checks `responseData.requiresGuestRemovalDialog !==
undefined`) is modelled as an `Option` that the handler never populates. -/
structure RegisterAttendanceBody where
  roster : GameRoster
  requiresGuestRemovalDialog : Option Bool
deriving DecidableEq

/-- Embedding of the `POST /api/game/:id/attendance` handler in `server.ts`:
validate the action string (400 on anything outside `validActions`, before any
database access), then run `registerAttendance` and classify service errors.
On any failure the returned state is the input state (rollback / no call). -/
def postAttendance (db : Db) (userId : String) (gameId : Nat) (action : String) :
    Db × Except ApiFailure RegisterAttendanceBody :=
  match parseAction action with
  | none => (db, .error ApiFailure.validation)
  | some a =>
    match registerAttendance db userId gameId a with
    | .error e => (db, .error (classifyAttendanceError e))
    | .ok (db2, roster) =>
        (db2, .ok { roster := roster, requiresGuestRemovalDialog := none })

/-!
Concrete test fixtures used to evaluate the embedded services on explicit
inputs (counterexamples, failing inputs and witnesses).
-/

/-- A game row with the given id and state (remaining columns arbitrary). -/
def mkGame (id : Nat) (st : GameState) : Game :=
  { id := id, date := "2025-01-01T18:00:00Z", location := "pitch", markdown := "game",
    state := st, createdBy := "admin", createdAt := 0, updatedAt := 0 }

/-- An attendance row fixture. -/
def mkAtt (id gameId : Nat) (p : String) (st : AttendanceStatus) (t : Nat) : Attendance :=
  { id := id, gameId := gameId, playerId := p, status := st, createdAt := t, updatedAt := t }

/-- A guest row fixture. -/
def mkGuest (id gameId : Nat) (inviter name : String) (st : GuestStatus) (t : Nat) :
    GuestPlayer :=
  { id := id, gameId := gameId, inviterId := inviter, fullName := name, rating := 5,
    primaryPosition := Position.MID, secondaryPosition := none, status := st,
    createdAt := t, updatedAt := t }

/-- A profile row fixture. -/
def mkProfile (u : String) : Profile :=
  { userId := u, firstName := "First", lastName := "Last", nickname := u, rating := 5,
    primaryPosition := Position.MID, secondaryPosition := none }

/-- A state at the combined cap reached with guests: one OPEN game holding one
CONFIRMED player `i` and 23 CONFIRMED guest slots invited by `i`, so the
combined confirmed count is 24 while only one `attendances` row has status
`CONFIRMED`. -/
def dbGuestCap24 : Db :=
  { games := [mkGame 1 GameState.OPEN]
    attendances := [mkAtt 0 1 "i" AttendanceStatus.CONFIRMED 0]
    guests := (List.range 23).map fun k =>
      mkGuest (k + 1) 1 "i" ("guest" ++ toString k) GuestStatus.CONFIRMED (k + 1)
    profiles := [mkProfile "i"]
    nextId := 100
    now := 100 }

/-- A state where player `p` is CONFIRMED on the OPEN game and has one guest
slot, so the spec expects an OUT request to come back with the
guest-removal-dialog flag. -/
def dbConfirmedWithGuest : Db :=
  { games := [mkGame 1 GameState.OPEN]
    attendances := [mkAtt 0 1 "p" AttendanceStatus.CONFIRMED 0]
    guests := [mkGuest 1 1 "p" "Alex Thompson" GuestStatus.CONFIRMED 1]
    profiles := [mkProfile "p"]
    nextId := 100
    now := 100 }

/-- A state with 24 distinct CONFIRMED players on the OPEN game (the player
cap is full) and a profile for the newcomer `p`. -/
def dbCapFull : Db :=
  { games := [mkGame 1 GameState.OPEN]
    attendances := (List.range 24).map fun k =>
      mkAtt k 1 ("d" ++ toString k) AttendanceStatus.CONFIRMED k
    guests := []
    profiles := [mkProfile "p"]
    nextId := 100
    now := 100 }

/-- A state with two confirmed guest slots whose creation order is opposite to
the inviter-id order: guest 1 was created first (time 1) by inviter `z`, guest
2 later (time 2) by inviter `a`. -/
def dbGuestOrder : Db :=
  { games := [mkGame 1 GameState.OPEN]
    attendances := []
    guests := [mkGuest 1 1 "z" "Zed Guest" GuestStatus.CONFIRMED 1,
               mkGuest 2 1 "a" "Ann Guest" GuestStatus.CONFIRMED 2]
    profiles := [mkProfile "z", mkProfile "a"]
    nextId := 100
    now := 100 }

/-- A small state with one empty OPEN game, used by witnesses. -/
def dbOpenEmpty : Db :=
  { games := [mkGame 1 GameState.OPEN]
    attendances := []
    guests := []
    profiles := [mkProfile "p"]
    nextId := 100
    now := 100 }

/-- A state whose single game is CLOSED and carries one guest slot, used to
witness the closed-game behaviours. -/
def dbClosedGuest : Db :=
  { games := [mkGame 1 GameState.CLOSED]
    attendances := [mkAtt 0 1 "i" AttendanceStatus.CONFIRMED 0]
    guests := [mkGuest 7 1 "i" "Guest Seven" GuestStatus.CONFIRMED 1]
    profiles := [mkProfile "i"]
    nextId := 100
    now := 100 }

/-- A state whose single game is ARCHIVED and carries one guest slot. -/
def dbArchivedGuest : Db :=
  { games := [mkGame 1 GameState.ARCHIVED]
    attendances := [mkAtt 0 1 "i" AttendanceStatus.CONFIRMED 0]
    guests := [mkGuest 7 1 "i" "Guest Seven" GuestStatus.CONFIRMED 1]
    profiles := [mkProfile "i"]
    nextId := 100
    now := 100 }

/-- A state where `p` holds a WAITING attendance row on the OPEN game while
the player cap is already full with 24 other CONFIRMED players. -/
def dbWaitingAtCap : Db :=
  { games := [mkGame 1 GameState.OPEN]
    attendances :=
      mkAtt 50 1 "p" AttendanceStatus.WAITING 50 ::
        ((List.range 24).map fun k =>
          mkAtt k 1 ("d" ++ toString k) AttendanceStatus.CONFIRMED k)
    guests := []
    profiles := [mkProfile "p"]
    nextId := 100
    now := 100 }

/-- A state holding one OPEN and one CLOSED game. -/
def dbTwoGames : Db :=
  { games := [mkGame 1 GameState.OPEN, mkGame 2 GameState.CLOSED]
    attendances := []
    guests := []
    profiles := []
    nextId := 3
    now := 9 }

/-!
Helper lemmas shared by the claim theorems.
-/

theorem upsertAttendance_games (db : Db) (gameId : Nat) (playerId : String)
    (status : AttendanceStatus) :
    (upsertAttendance db gameId playerId status).games = db.games := by
  unfold upsertAttendance
  split <;> rfl

theorem upsertAttendance_guests (db : Db) (gameId : Nat) (playerId : String)
    (status : AttendanceStatus) :
    (upsertAttendance db gameId playerId status).guests = db.guests := by
  unfold upsertAttendance
  split <;> rfl

theorem upsertAttendance_profiles (db : Db) (gameId : Nat) (playerId : String)
    (status : AttendanceStatus) :
    (upsertAttendance db gameId playerId status).profiles = db.profiles := by
  unfold upsertAttendance
  split <;> rfl

theorem find?_upsertRows (l : List Attendance) (gameId : Nat) (playerId : String)
    (status : AttendanceStatus) (now : Nat)
    (h : l.any (fun a => decide (a.gameId = gameId ∧ a.playerId = playerId)) = true) :
    ((l.map fun a =>
        if a.gameId = gameId ∧ a.playerId = playerId then
          { a with status := status
                   updatedAt := now }
        else a).find?
      (fun a => decide (a.gameId = gameId ∧ a.playerId = playerId))).map (·.status)
      = some status := by
  induction l with
  | nil => simp at h
  | cons a l ih =>
      by_cases hp : a.gameId = gameId ∧ a.playerId = playerId
      · simp [List.find?, hp]
      · rw [List.any_cons] at h
        have hpa : (decide (a.gameId = gameId ∧ a.playerId = playerId)) = false := by
          simp [hp]
        rw [hpa, Bool.false_or] at h
        simp only [List.map_cons]
        rw [if_neg hp, List.find?_cons_of_neg _ (by simp [hp])]
        exact ih h

theorem findAttendance_upsert (db : Db) (gameId : Nat) (playerId : String)
    (status : AttendanceStatus) :
    (findAttendance (upsertAttendance db gameId playerId status) gameId
        playerId).map (·.status) = some status := by
  unfold findAttendance upsertAttendance
  by_cases h :
      db.attendances.any (fun a => decide (a.gameId = gameId ∧ a.playerId = playerId)) = true
  · simp only [h, if_pos]
    exact find?_upsertRows db.attendances gameId playerId status db.now h
  · simp only [h]
    rw [if_neg (by simp [h])]
    have hnone :
        db.attendances.find? (fun a => decide (a.gameId = gameId ∧ a.playerId = playerId))
          = none := by
      rw [List.find?_eq_none]
      intro x hx
      intro hcontra
      exact absurd (List.any_eq_true.mpr ⟨x, hx, hcontra⟩) h
    rw [List.find?_append, hnone, Option.none_or,
      List.find?_cons_of_pos _ (by simp)]
    rfl

/-- The claimed single-open-game invariant holds after any `createGame` call
on any starting state; since it holds for every pre-state, it holds after each
call of an arbitrary sequence of calls. -/
theorem createGame_filter_open (db : Db) (adminId : String) (req : CreateGameRequest) :
    ((createGame db adminId req).1.games.filter fun g =>
      decide (g.state = GameState.OPEN)) = [(createGame db adminId req).2] := by
  unfold createGame
  simp only [List.filter_append]
  have h1 : (db.games.map fun g =>
      if g.state = GameState.OPEN then
        { g with state := GameState.ARCHIVED, updatedAt := db.now }
      else g).filter (fun g => decide (g.state = GameState.OPEN)) = [] := by
    rw [List.filter_eq_nil_iff]
    intro x hx
    rcases List.mem_map.mp hx with ⟨g, _, rfl⟩
    by_cases hs : g.state = GameState.OPEN
    · simp [hs]
    · simp [hs]
  rw [h1]
  simp [List.filter]

theorem handleConfirmedRequest_frame (db : Db) (g : Nat) (u : String)
    (es : Option AttendanceStatus) :
    (handleConfirmedRequest db g u es).games = db.games ∧
    (handleConfirmedRequest db g u es).guests = db.guests ∧
    (handleConfirmedRequest db g u es).profiles = db.profiles := by
  unfold handleConfirmedRequest
  dsimp only
  split <;> try split
  all_goals
    first
      | exact ⟨rfl, rfl, rfl⟩
      | exact ⟨upsertAttendance_games .., upsertAttendance_guests ..,
          upsertAttendance_profiles ..⟩

theorem handleWaitingRequest_frame (db : Db) (g : Nat) (u : String)
    (es : Option AttendanceStatus) :
    (handleWaitingRequest db g u es).games = db.games ∧
    (handleWaitingRequest db g u es).guests = db.guests ∧
    (handleWaitingRequest db g u es).profiles = db.profiles := by
  unfold handleWaitingRequest
  split <;> try split
  all_goals
    first
      | exact ⟨rfl, rfl, rfl⟩
      | exact ⟨upsertAttendance_games .., upsertAttendance_guests ..,
          upsertAttendance_profiles ..⟩

theorem handleOutRequest_frame (db : Db) (g : Nat) (u : String)
    (es : Option AttendanceStatus) :
    (handleOutRequest db g u es).games = db.games ∧
    (handleOutRequest db g u es).guests = db.guests ∧
    (handleOutRequest db g u es).profiles = db.profiles := by
  unfold handleOutRequest
  split <;> try split
  all_goals
    first
      | exact ⟨rfl, rfl, rfl⟩
      | exact ⟨upsertAttendance_games .., upsertAttendance_guests ..,
          upsertAttendance_profiles ..⟩

theorem handleLateConfirmedRequest_frame (db : Db) (g : Nat) (u : String)
    (es : Option AttendanceStatus) :
    (handleLateConfirmedRequest db g u es).games = db.games ∧
    (handleLateConfirmedRequest db g u es).guests = db.guests ∧
    (handleLateConfirmedRequest db g u es).profiles = db.profiles := by
  unfold handleLateConfirmedRequest
  split <;> try split
  all_goals
    first
      | exact ⟨rfl, rfl, rfl⟩
      | exact ⟨upsertAttendance_games .., upsertAttendance_guests ..,
          upsertAttendance_profiles ..⟩

/-- On an existing OPEN game, `registerAttendance` reduces to the action
dispatch followed by the roster read. -/
theorem registerAttendance_eq (db : Db) (u : String) (g : Nat)
    (action : AttendanceStatus) (gm : Game)
    (h1 : findGame db g = some gm) (h2 : gm.state = GameState.OPEN) :
    registerAttendance db u g action =
      (let existingStatus := (findAttendance db g u).map (·.status)
       let db2 :=
         match action with
         | .CONFIRMED => handleConfirmedRequest db g u existingStatus
         | .WAITING => handleWaitingRequest db g u existingStatus
         | .OUT => handleOutRequest db g u existingStatus
         | .LATE_CONFIRMED => handleLateConfirmedRequest db g u existingStatus
       Except.ok (db2, getRoster db2 g)) := by
  unfold registerAttendance
  rw [h1]
  simp [h2]

/-- C1: after any `createGame` call, on any starting state, the games whose
state is OPEN are exactly the singleton list holding the game just created: at
most one game is OPEN and it is the created one.  Because the statement is
universally quantified over the pre-state, it holds after each call of every
sequence of `createGame` calls. -/
theorem claim_C1_single_open_game (db : Db) (adminId : String) (req : CreateGameRequest) :
    (createGame db adminId req).2.state = GameState.OPEN ∧
    ((createGame db adminId req).1.games.filter fun g =>
      decide (g.state = GameState.OPEN)) = [(createGame db adminId req).2] :=
  ⟨rfl, createGame_filter_open db adminId req⟩

/-- C1 witness: on a concrete two-game state (one already OPEN), a fresh
`createGame` call leaves exactly the new game OPEN. -/
theorem claim_C1_single_open_game_witness :
    ((createGame dbTwoGames "admin" ⟨"2025-02-01", "pitch", "next game"⟩).1.games.filter
      fun g => decide (g.state = GameState.OPEN)) =
      [(createGame dbTwoGames "admin" ⟨"2025-02-01", "pitch", "next game"⟩).2] :=
  (claim_C1_single_open_game dbTwoGames "admin" ⟨"2025-02-01", "pitch", "next game"⟩).2

/-- C3: on an OPEN game with an eligible inviter (registered and not OUT),
`createGuest` inserts exactly one new guest slot whose status is WAITING when
the combined confirmed count (players CONFIRMED or LATE_CONFIRMED plus guests
CONFIRMED) computed on the pre-state is at least `MAX_TOTAL_PLAYERS` (24), and
CONFIRMED otherwise. -/
theorem claim_C3_guest_status_from_combined_count (db : Db) (inviterId : String)
    (g : Nat) (gd : CreateGuestPlayerRequest) (gm : Game) (inv : Attendance)
    (h1 : findGame db g = some gm) (h2 : gm.state = GameState.OPEN)
    (h3 : findAttendance db g inviterId = some inv)
    (h4 : inv.status ≠ AttendanceStatus.OUT) :
    ∃ db2 r newGuest,
      createGuest db inviterId g gd = Except.ok (db2, r) ∧
      r = getRosterWithGuests db2 g ∧
      db2.guests = db.guests ++ [newGuest] ∧
      newGuest.inviterId = inviterId ∧
      newGuest.fullName = gd.fullName ∧
      newGuest.status =
        (if MAX_TOTAL_PLAYERS ≤ combinedConfirmedCount db g then GuestStatus.WAITING
         else GuestStatus.CONFIRMED) := by
  unfold createGuest
  rw [h1]
  dsimp only
  rw [if_neg (show ¬ gm.state ≠ GameState.OPEN by simp [h2]), h3]
  dsimp only
  rw [if_neg h4]
  exact ⟨_, _, _, rfl, rfl, rfl, rfl, rfl, rfl⟩

/-- C3 witness: on the concrete state where player `p` is CONFIRMED on the
OPEN game, adding a guest succeeds and the guest is CONFIRMED (the combined
count is below the cap). -/
theorem claim_C3_guest_status_witness :
    (findAttendance dbConfirmedWithGuest 1 "p" =
      some (mkAtt 0 1 "p" AttendanceStatus.CONFIRMED 0)) ∧
    ∃ db2 r newGuest,
      createGuest dbConfirmedWithGuest "p" 1 ⟨"Sam Guest", 7, Position.ATT, none⟩ =
        Except.ok (db2, r) ∧
      r = getRosterWithGuests db2 1 ∧
      db2.guests = dbConfirmedWithGuest.guests ++ [newGuest] ∧
      newGuest.inviterId = "p" ∧
      newGuest.fullName = "Sam Guest" ∧
      newGuest.status =
        (if MAX_TOTAL_PLAYERS ≤ combinedConfirmedCount dbConfirmedWithGuest 1
         then GuestStatus.WAITING else GuestStatus.CONFIRMED) :=
  ⟨by decide,
    claim_C3_guest_status_from_combined_count dbConfirmedWithGuest "p" 1
      ⟨"Sam Guest", 7, Position.ATT, none⟩ (mkGame 1 GameState.OPEN)
      (mkAtt 0 1 "p" AttendanceStatus.CONFIRMED 0) (by decide) rfl (by decide)
      (by decide)⟩

/-- C5: a player who already holds an attendance record with any status other
than CONFIRMED and requests CONFIRMED on the OPEN game is set to CONFIRMED
unconditionally: the statement carries no hypothesis about the confirmed
count, so it applies in particular when the cap is already reached. -/
theorem claim_C5_existing_attendee_confirm_ignores_cap (db : Db) (u : String)
    (g : Nat) (gm : Game) (a : Attendance)
    (h1 : findGame db g = some gm) (h2 : gm.state = GameState.OPEN)
    (h3 : findAttendance db g u = some a)
    (h4 : a.status ≠ AttendanceStatus.CONFIRMED) :
    ∃ db2 r, registerAttendance db u g AttendanceStatus.CONFIRMED = Except.ok (db2, r) ∧
      (findAttendance db2 g u).map (·.status) = some AttendanceStatus.CONFIRMED := by
  rw [registerAttendance_eq db u g AttendanceStatus.CONFIRMED gm h1 h2]
  dsimp only
  rw [h3]
  refine ⟨_, _, rfl, ?_⟩
  unfold handleConfirmedRequest
  dsimp only [Option.map]
  cases ha : a.status with
  | CONFIRMED => exact absurd ha h4
  | WAITING => exact findAttendance_upsert ..
  | OUT => exact findAttendance_upsert ..
  | LATE_CONFIRMED => exact findAttendance_upsert ..

/-- C5 witness: on the concrete state where `p` is WAITING while 24 other
players are CONFIRMED (the cap is full), a CONFIRMED request from `p` still
sets `p` to CONFIRMED. -/
theorem claim_C5_existing_attendee_confirm_witness :
    MAX_CONFIRMED_PLAYERS ≤ confirmedPlayerCount dbWaitingAtCap 1 ∧
    ∃ db2 r, registerAttendance dbWaitingAtCap "p" 1 AttendanceStatus.CONFIRMED =
        Except.ok (db2, r) ∧
      (findAttendance db2 1 "p").map (·.status) = some AttendanceStatus.CONFIRMED :=
  ⟨by decide,
    claim_C5_existing_attendee_confirm_ignores_cap dbWaitingAtCap "p" 1
      (mkGame 1 GameState.OPEN) (mkAtt 50 1 "p" AttendanceStatus.WAITING 50)
      (by decide) rfl (by decide) (by decide)⟩

/-- C7: for an existing guest slot (whose game row exists), `deleteGuest`
fails with the Conflict-classified closed-game error, deleting nothing (an
error rolls the transaction back, so no updated state is produced), exactly
when the owning game is CLOSED; for OPEN or ARCHIVED games the slot's rows
are deleted and the updated roster is returned. -/
theorem claim_C7_delete_guest_blocked_iff_closed (db : Db) (guestId : Nat)
    (gu : GuestPlayer) (gm : Game)
    (h1 : findGuest db guestId = some gu) (h2 : findGame db gu.gameId = some gm) :
    ((∃ e, deleteGuest db guestId = Except.error e ∧
        classifyGuestDeleteError e = ApiFailure.conflict) ↔
      gm.state = GameState.CLOSED) ∧
    (gm.state ≠ GameState.CLOSED →
      ∃ db2, deleteGuest db guestId = Except.ok (db2, getRosterWithGuests db2 gu.gameId) ∧
        db2.guests = db.guests.filter (fun x => decide (x.id ≠ guestId)) ∧
        db2.games = db.games ∧ db2.attendances = db.attendances ∧
        db2.profiles = db.profiles) := by
  unfold deleteGuest
  rw [h1]
  dsimp only
  rw [h2]
  dsimp only
  by_cases hc : gm.state = GameState.CLOSED
  · rw [if_pos hc]
    refine ⟨⟨fun _ => hc, fun _ => ⟨DomainError.cannotDeleteGuestFromClosedGame, rfl, by decide⟩⟩, ?_⟩
    intro hn
    exact absurd hc hn
  · rw [if_neg hc]
    refine ⟨⟨?_, fun h => absurd h hc⟩, ?_⟩
    · rintro ⟨e, he, -⟩
      exact absurd he (by simp)
    · intro _
      exact ⟨_, rfl, rfl, rfl, rfl, rfl⟩

/-- C7 witness: deleting the guest of a CLOSED game yields the
Conflict-classified error, while deleting the same guest when its game is
ARCHIVED succeeds and removes the row. -/
theorem claim_C7_delete_guest_witness :
    (∃ e, deleteGuest dbClosedGuest 7 = Except.error e ∧
      classifyGuestDeleteError e = ApiFailure.conflict) ∧
    (∃ db2, deleteGuest dbArchivedGuest 7 =
        Except.ok (db2, getRosterWithGuests db2
          (mkGuest 7 1 "i" "Guest Seven" GuestStatus.CONFIRMED 1).gameId) ∧
      db2.guests = dbArchivedGuest.guests.filter (fun x => decide (x.id ≠ 7)) ∧
      db2.games = dbArchivedGuest.games ∧ db2.attendances = dbArchivedGuest.attendances ∧
      db2.profiles = dbArchivedGuest.profiles) :=
  ⟨(claim_C7_delete_guest_blocked_iff_closed dbClosedGuest 7
      (mkGuest 7 1 "i" "Guest Seven" GuestStatus.CONFIRMED 1)
      (mkGame 1 GameState.CLOSED) (by decide) (by decide)).1.mpr rfl,
    (claim_C7_delete_guest_blocked_iff_closed dbArchivedGuest 7
      (mkGuest 7 1 "i" "Guest Seven" GuestStatus.CONFIRMED 1)
      (mkGame 1 GameState.ARCHIVED) (by decide) (by decide)).2 (by decide)⟩

/-- C10: for any existing guest slot, `updateGuest` succeeds with no
game-state condition of any kind (the statement carries no hypothesis on the
owning game, which may be CLOSED or ARCHIVED), returns the row with only
`fullName`, `rating`, the two positions and `updatedAt` changed (status,
gameId, inviterId and createdAt are preserved), rewrites only rows with that
guest id, and leaves the games, attendances and profiles tables untouched. -/
theorem claim_C10_update_guest_frame (db : Db) (guestId : Nat)
    (gd : CreateGuestPlayerRequest) (gu : GuestPlayer)
    (h : findGuest db guestId = some gu) :
    ∃ db2, updateGuest db guestId gd = Except.ok (db2, applyGuestUpdate gd db.now gu) ∧
      (applyGuestUpdate gd db.now gu).status = gu.status ∧
      (applyGuestUpdate gd db.now gu).gameId = gu.gameId ∧
      (applyGuestUpdate gd db.now gu).inviterId = gu.inviterId ∧
      (applyGuestUpdate gd db.now gu).createdAt = gu.createdAt ∧
      (applyGuestUpdate gd db.now gu).fullName = gd.fullName ∧
      db2.games = db.games ∧ db2.attendances = db.attendances ∧
      db2.profiles = db.profiles ∧
      db2.guests = db.guests.map
        (fun x => if x.id = guestId then applyGuestUpdate gd db.now x else x) ∧
      (∀ x ∈ db.guests, x.id ≠ guestId → x ∈ db2.guests) := by
  unfold updateGuest
  rw [h]
  refine ⟨_, rfl, rfl, rfl, rfl, rfl, rfl, rfl, rfl, rfl, rfl, ?_⟩
  intro x hx hne
  exact List.mem_map.mpr ⟨x, hx, by simp [hne]⟩

/-- C10 witness: updating the guest of a CLOSED game succeeds, changes that
row's editable fields and touches nothing else. -/
theorem claim_C10_update_guest_witness :
    (findGame dbClosedGuest 1 = some (mkGame 1 GameState.CLOSED)) ∧
    ∃ db2, updateGuest dbClosedGuest 7 ⟨"Guest Renamed", 9, Position.GK, none⟩ =
        Except.ok (db2, applyGuestUpdate ⟨"Guest Renamed", 9, Position.GK, none⟩
          dbClosedGuest.now (mkGuest 7 1 "i" "Guest Seven" GuestStatus.CONFIRMED 1)) ∧
      db2.games = dbClosedGuest.games ∧ db2.attendances = dbClosedGuest.attendances :=
  ⟨by decide, by
    obtain ⟨db2, e1, -, -, -, -, -, e7, e8, -, -, -⟩ :=
      claim_C10_update_guest_frame dbClosedGuest 7
        ⟨"Guest Renamed", 9, Position.GK, none⟩
        (mkGuest 7 1 "i" "Guest Seven" GuestStatus.CONFIRMED 1) (by decide)
    exact ⟨db2, e1, e7, e8⟩⟩

/-- C2 (evaluation of the code at the failing input): on `dbGuestCap24` the
combined confirmed count — players CONFIRMED or LATE_CONFIRMED plus guests
CONFIRMED — is exactly 24 and player `p` has no attendance record, yet the
first-time CONFIRMED request is granted status CONFIRMED and the combined
count rises to 25: `handleConfirmedRequest` caps on the count of players with
status CONFIRMED only (here 1) and never counts guests. -/
theorem claim_C2_cap_overrun_with_guests :
    combinedConfirmedCount dbGuestCap24 1 = 24 ∧
    findAttendance dbGuestCap24 1 "p" = none ∧
    confirmedPlayerCount dbGuestCap24 1 = 1 ∧
    (Except.toOption (registerAttendance dbGuestCap24 "p" 1
        AttendanceStatus.CONFIRMED)).map
        (fun x => ((findAttendance x.1 1 "p").map (·.status),
          combinedConfirmedCount x.1 1))
      = some (some AttendanceStatus.CONFIRMED, 25) := by
  decide

/-- C4 (evaluation of the code at the failing input): on
`dbConfirmedWithGuest`, where `p` is CONFIRMED and has one guest slot, an OUT
request sets `p` to OUT, removes `p` from both roster buckets and leaves the
guest rows untouched — but the response body never carries a
`requiresGuestRemovalDialog` key (the handler returns the bare roster), so the
flag the claim requires is absent. -/
theorem claim_C4_out_response_has_no_dialog_flag :
    dbConfirmedWithGuest.guests.any
      (fun x => decide (x.inviterId = "p" ∧ x.gameId = 1)) = true ∧
    (Except.toOption (postAttendance dbConfirmedWithGuest "p" 1 "OUT").2).map
      (fun b => b.requiresGuestRemovalDialog) = some none ∧
    (findAttendance (postAttendance dbConfirmedWithGuest "p" 1 "OUT").1 1 "p").map
      (·.status) = some AttendanceStatus.OUT ∧
    (postAttendance dbConfirmedWithGuest "p" 1 "OUT").1.guests =
      dbConfirmedWithGuest.guests ∧
    (Except.toOption (postAttendance dbConfirmedWithGuest "p" 1 "OUT").2).map
      (fun b => (b.roster.confirmed.length, b.roster.waiting.length)) = some (0, 0) := by
  decide

/-- C6 counterexample: on `dbCapFull` (24 CONFIRMED players, newcomer `p`),
two successive identical `registerAttendance(p, 1, CONFIRMED)` calls both
succeed but return different rosters and different states: the first call
parks `p` on the waiting list (cap reached), the second call finds an existing
record and promotes `p` to CONFIRMED. -/
theorem claim_C6_counterexample_double_confirm :
    ∃ db1 r1 db2 r2,
      registerAttendance dbCapFull "p" 1 AttendanceStatus.CONFIRMED =
        Except.ok (db1, r1) ∧
      registerAttendance db1 "p" 1 AttendanceStatus.CONFIRMED =
        Except.ok (db2, r2) ∧
      (findAttendance db1 1 "p").map (·.status) = some AttendanceStatus.WAITING ∧
      (findAttendance db2 1 "p").map (·.status) = some AttendanceStatus.CONFIRMED ∧
      r1 ≠ r2 := by
  refine ⟨_, _, _, _, rfl, rfl, ?_, ?_, ?_⟩ <;> decide

theorem findGame_eq_of_games_eq {db1 db2 : Db} (h : db1.games = db2.games) (g : Nat) :
    findGame db1 g = findGame db2 g := by
  unfold findGame
  rw [h]

/-- After a successful `registerAttendance` whose request is not a first-time
CONFIRMED at a full player cap, the caller's stored status equals the
requested status, and the games table is unchanged. -/
theorem registerAttendance_first_status (db : Db) (u : String) (g : Nat)
    (S : AttendanceStatus) (gm : Game) (h1 : findGame db g = some gm)
    (h2 : gm.state = GameState.OPEN)
    (h3 : ¬ (findAttendance db g u = none ∧ S = AttendanceStatus.CONFIRMED ∧
         MAX_CONFIRMED_PLAYERS ≤ confirmedPlayerCount db g)) :
    ∃ db1, registerAttendance db u g S = Except.ok (db1, getRoster db1 g) ∧
      (findAttendance db1 g u).map (·.status) = some S ∧
      db1.games = db.games := by
  rw [registerAttendance_eq db u g S gm h1 h2]
  dsimp only
  refine ⟨_, rfl, ?_, ?_⟩
  · cases S with
    | CONFIRMED =>
        unfold handleConfirmedRequest
        dsimp only
        cases hex : findAttendance db g u with
        | none =>
            dsimp only [Option.map]
            rw [if_neg (fun hcap => h3 ⟨hex, rfl, hcap⟩)]
            exact findAttendance_upsert ..
        | some a =>
            dsimp only [Option.map]
            cases ha : a.status with
            | CONFIRMED =>
                rw [hex]
                simp [Option.map, ha]
            | WAITING => exact findAttendance_upsert ..
            | OUT => exact findAttendance_upsert ..
            | LATE_CONFIRMED => exact findAttendance_upsert ..
    | WAITING =>
        unfold handleWaitingRequest
        cases hex : findAttendance db g u with
        | none =>
            dsimp only [Option.map]
            exact findAttendance_upsert ..
        | some a =>
            dsimp only [Option.map]
            cases ha : a.status with
            | WAITING =>
                rw [hex]
                simp [Option.map, ha]
            | CONFIRMED => exact findAttendance_upsert ..
            | OUT => exact findAttendance_upsert ..
            | LATE_CONFIRMED => exact findAttendance_upsert ..
    | OUT =>
        unfold handleOutRequest
        cases hex : findAttendance db g u with
        | none =>
            dsimp only [Option.map]
            exact findAttendance_upsert ..
        | some a =>
            dsimp only [Option.map]
            cases ha : a.status with
            | OUT =>
                rw [hex]
                simp [Option.map, ha]
            | CONFIRMED => exact findAttendance_upsert ..
            | WAITING => exact findAttendance_upsert ..
            | LATE_CONFIRMED => exact findAttendance_upsert ..
    | LATE_CONFIRMED =>
        unfold handleLateConfirmedRequest
        cases hex : findAttendance db g u with
        | none =>
            dsimp only [Option.map]
            exact findAttendance_upsert ..
        | some a =>
            dsimp only [Option.map]
            cases ha : a.status with
            | LATE_CONFIRMED =>
                rw [hex]
                simp [Option.map, ha]
            | CONFIRMED => exact findAttendance_upsert ..
            | WAITING => exact findAttendance_upsert ..
            | OUT => exact findAttendance_upsert ..
  · cases S with
    | CONFIRMED => exact (handleConfirmedRequest_frame db g u _).1
    | WAITING => exact (handleWaitingRequest_frame db g u _).1
    | OUT => exact (handleOutRequest_frame db g u _).1
    | LATE_CONFIRMED => exact (handleLateConfirmedRequest_frame db g u _).1

/-- C6 amended: double-call idempotence holds for every request except a
first-time CONFIRMED request issued while the CONFIRMED-player count has
already reached the cap: outside that case the two successive identical calls
return the same roster and the state after the second call equals the state
after the first (the second call is a no-op). -/
theorem claim_C6_amended_idempotence (db : Db) (u : String) (g : Nat)
    (S : AttendanceStatus) (gm : Game) (h1 : findGame db g = some gm)
    (h2 : gm.state = GameState.OPEN)
    (h3 : ¬ (findAttendance db g u = none ∧ S = AttendanceStatus.CONFIRMED ∧
         MAX_CONFIRMED_PLAYERS ≤ confirmedPlayerCount db g)) :
    ∃ db1 r1, registerAttendance db u g S = Except.ok (db1, r1) ∧
      registerAttendance db1 u g S = Except.ok (db1, r1) := by
  obtain ⟨db1, hcall, hstat, hgames⟩ :=
    registerAttendance_first_status db u g S gm h1 h2 h3
  refine ⟨db1, getRoster db1 g, hcall, ?_⟩
  have hfind : findGame db1 g = some gm := by
    rw [findGame_eq_of_games_eq hgames]
    exact h1
  rw [registerAttendance_eq db1 u g S gm hfind h2]
  dsimp only
  cases S with
  | CONFIRMED =>
      unfold handleConfirmedRequest
      rw [hstat]
  | WAITING =>
      unfold handleWaitingRequest
      rw [hstat]
  | OUT =>
      unfold handleOutRequest
      rw [hstat]
  | LATE_CONFIRMED =>
      unfold handleLateConfirmedRequest
      rw [hstat]

/-- C6 witness for the amended idempotence: a first registration on an empty
OPEN game (cap not reached) followed by the identical call returns the same
state and roster. -/
theorem claim_C6_amended_idempotence_witness :
    confirmedPlayerCount dbOpenEmpty 1 < MAX_CONFIRMED_PLAYERS ∧
    ∃ db1 r1,
      registerAttendance dbOpenEmpty "p" 1 AttendanceStatus.CONFIRMED =
        Except.ok (db1, r1) ∧
      registerAttendance db1 "p" 1 AttendanceStatus.CONFIRMED =
        Except.ok (db1, r1) :=
  ⟨by decide,
    claim_C6_amended_idempotence dbOpenEmpty "p" 1 AttendanceStatus.CONFIRMED
      (mkGame 1 GameState.OPEN) (by decide) rfl (by decide)⟩

theorem registerAttendance_of_no_game (db : Db) (u : String) (g : Nat)
    (S : AttendanceStatus) (hf : findGame db g = none) :
    registerAttendance db u g S = Except.error DomainError.gameNotFound := by
  unfold registerAttendance
  rw [hf]

theorem registerAttendance_of_not_open (db : Db) (u : String) (g : Nat)
    (S : AttendanceStatus) (gm : Game) (hf : findGame db g = some gm)
    (hs : gm.state ≠ GameState.OPEN) :
    registerAttendance db u g S = Except.error DomainError.gameNotOpenForAttendance := by
  unfold registerAttendance
  rw [hf]
  dsimp only
  rw [if_pos hs]

theorem registerAttendance_ok_of_open (db : Db) (u : String) (g : Nat)
    (S : AttendanceStatus) (gm : Game) (hf : findGame db g = some gm)
    (hs : gm.state = GameState.OPEN) :
    ∃ p, registerAttendance db u g S = Except.ok p := by
  rw [registerAttendance_eq db u g S gm hf hs]
  exact ⟨_, rfl⟩

/-- C8: for a typed service call `registerAttendance(p, g, S)` the NotFound-
classified failure occurs exactly when the game does not exist and the
Forbidden-classified failure exactly when the game exists with a non-OPEN
state; at the transport layer an `action` string outside the four valid values
is rejected with the Validation failure before any database access, and every
failed request leaves the state untouched (the transaction rolls back). -/
theorem claim_C8_failure_modes (db : Db) (u : String) (g : Nat)
    (S : AttendanceStatus) (raw : String) :
    ((∃ e, registerAttendance db u g S = Except.error e ∧
        classifyAttendanceError e = ApiFailure.notFound) ↔ findGame db g = none) ∧
    ((∃ e, registerAttendance db u g S = Except.error e ∧
        classifyAttendanceError e = ApiFailure.forbidden) ↔
      (∃ gm, findGame db g = some gm ∧ gm.state ≠ GameState.OPEN)) ∧
    (parseAction raw = none →
      postAttendance db u g raw = (db, Except.error ApiFailure.validation)) ∧
    (∀ e, (postAttendance db u g raw).2 = Except.error e →
      (postAttendance db u g raw).1 = db) := by
  refine ⟨?_, ?_, ?_, ?_⟩
  · cases hf : findGame db g with
    | none =>
        exact ⟨fun _ => rfl,
          fun _ => ⟨DomainError.gameNotFound,
            registerAttendance_of_no_game db u g S hf, by decide⟩⟩
    | some gm =>
        by_cases hs : gm.state = GameState.OPEN
        · obtain ⟨p, hp⟩ := registerAttendance_ok_of_open db u g S gm hf hs
          refine ⟨?_, fun hnone => Option.noConfusion hnone⟩
          rintro ⟨e, hee, -⟩
          rw [hp] at hee
          exact Except.noConfusion hee
        · have he := registerAttendance_of_not_open db u g S gm hf hs
          refine ⟨?_, fun hnone => Option.noConfusion hnone⟩
          rintro ⟨e, hee, hcl⟩
          rw [he] at hee
          obtain rfl := Except.error.inj hee
          exact absurd hcl (by decide)
  · cases hf : findGame db g with
    | none =>
        have he := registerAttendance_of_no_game db u g S hf
        refine ⟨?_, ?_⟩
        · rintro ⟨e, hee, hcl⟩
          rw [he] at hee
          obtain rfl := Except.error.inj hee
          exact absurd hcl (by decide)
        · rintro ⟨gm, hgm, -⟩
          exact Option.noConfusion hgm
    | some gm =>
        by_cases hs : gm.state = GameState.OPEN
        · obtain ⟨p, hp⟩ := registerAttendance_ok_of_open db u g S gm hf hs
          refine ⟨?_, ?_⟩
          · rintro ⟨e, hee, -⟩
            rw [hp] at hee
            exact Except.noConfusion hee
          · rintro ⟨gm2, hgm2, hne⟩
            obtain rfl := Option.some.inj hgm2
            exact absurd hs hne
        · have he := registerAttendance_of_not_open db u g S gm hf hs
          exact ⟨fun _ => ⟨gm, rfl, hs⟩,
            fun _ => ⟨DomainError.gameNotOpenForAttendance, he, by decide⟩⟩
  · intro hp
    unfold postAttendance
    rw [hp]
  · intro e
    unfold postAttendance
    cases hp : parseAction raw with
    | none => exact fun _ => rfl
    | some a =>
        dsimp only
        cases hra : registerAttendance db u g a with
        | error e2 => exact fun _ => rfl
        | ok p =>
            obtain ⟨db2, r⟩ := p
            exact fun hcontra => Except.noConfusion hcontra

/-- C8 witness: a call on a missing game id fails NotFound, and an invalid
action string is rejected with the Validation failure leaving the state
unchanged. -/
theorem claim_C8_failure_modes_witness :
    (findGame dbOpenEmpty 404 = none) ∧
    (∃ e, registerAttendance dbOpenEmpty "p" 404 AttendanceStatus.CONFIRMED =
        Except.error e ∧ classifyAttendanceError e = ApiFailure.notFound) ∧
    (parseAction "DANCE" = none) ∧
    postAttendance dbOpenEmpty "p" 1 "DANCE" =
      (dbOpenEmpty, Except.error ApiFailure.validation) :=
  ⟨by decide,
    (claim_C8_failure_modes dbOpenEmpty "p" 404 AttendanceStatus.CONFIRMED "DANCE").1.mpr
      (by decide),
    by decide,
    (claim_C8_failure_modes dbOpenEmpty "p" 1 AttendanceStatus.CONFIRMED "DANCE").2.2.1
      (by decide)⟩

instance : IsTotal Attendance attCreatedLe :=
  ⟨fun a b => Nat.le_total a.createdAt b.createdAt⟩

instance : IsTrans Attendance attCreatedLe :=
  ⟨fun _ _ _ hab hbc => Nat.le_trans hab hbc⟩

instance : IsTotal GuestPlayer guestOrderLe := by
  refine ⟨fun a b => ?_⟩
  rcases lt_trichotomy a.inviterId.data b.inviterId.data with h | h | h
  · exact Or.inl (Or.inl h)
  · have he : a.inviterId = b.inviterId := String.ext h
    rcases Nat.le_total a.createdAt b.createdAt with hc | hc
    · exact Or.inl (Or.inr ⟨he, hc⟩)
    · exact Or.inr (Or.inr ⟨he.symm, hc⟩)
  · exact Or.inr (Or.inl h)

instance : IsTrans GuestPlayer guestOrderLe := by
  refine ⟨fun a b c hab hbc => ?_⟩
  rcases hab with h1 | ⟨h1, h1c⟩
  · rcases hbc with h2 | ⟨h2, h2c⟩
    · exact Or.inl (lt_trans h1 h2)
    · exact Or.inl (lt_of_lt_of_le h1 (le_of_eq (congrArg String.data h2)))
  · rcases hbc with h2 | ⟨h2, h2c⟩
    · exact Or.inl (lt_of_le_of_lt (le_of_eq (congrArg String.data h1)) h2)
    · exact Or.inr ⟨h1.trans h2, Nat.le_trans h1c h2c⟩

theorem pairwise_filterMap_of_pairwise {α β : Type} (R : α → α → Prop)
    (S : β → β → Prop) (f : α → Option β)
    (hf : ∀ a b x y, R a b → f a = some x → f b = some y → S x y) :
    ∀ {l : List α}, l.Pairwise R → (l.filterMap f).Pairwise S := by
  intro l h
  induction h with
  | nil => simp
  | @cons a l2 hr hp ih =>
      cases hfa : f a with
      | none =>
          rw [List.filterMap_cons, hfa]
          exact ih
      | some x =>
          rw [List.filterMap_cons, hfa]
          refine List.Pairwise.cons ?_ ih
          intro y hy
          obtain ⟨b, hb, hfb⟩ := List.mem_filterMap.mp hy
          exact hf a b x y (hr b hb) hfa hfb

theorem joinPlayers_pairwise (db : Db) (rows : List Attendance)
    (h : rows.Pairwise attCreatedLe) :
    (joinPlayers db rows).Pairwise
      (fun x y => x.record.createdAt ≤ y.record.createdAt) := by
  refine pairwise_filterMap_of_pairwise attCreatedLe _ _ ?_ h
  intro a b x y hab hfa hfb
  cases hpa : findProfile db a.playerId with
  | none =>
      rw [hpa] at hfa
      exact Option.noConfusion hfa
  | some p =>
      rw [hpa] at hfa
      cases hpb : findProfile db b.playerId with
      | none =>
          rw [hpb] at hfb
          exact Option.noConfusion hfb
      | some q =>
          rw [hpb] at hfb
          obtain rfl := Option.some.inj hfa
          obtain rfl := Option.some.inj hfb
          exact hab

theorem joinInviters_pairwise (db : Db) (rows : List GuestPlayer)
    (h : rows.Pairwise guestOrderLe) :
    (joinInviters db rows).Pairwise
      (fun x y => guestOrderLe x.guest y.guest) := by
  refine pairwise_filterMap_of_pairwise guestOrderLe _ _ ?_ h
  intro a b x y hab hfa hfb
  cases hpa : findProfile db a.inviterId with
  | none =>
      rw [hpa] at hfa
      exact Option.noConfusion hfa
  | some p =>
      rw [hpa] at hfa
      cases hpb : findProfile db b.inviterId with
      | none =>
          rw [hpb] at hfb
          exact Option.noConfusion hfb
      | some q =>
          rw [hpb] at hfb
          obtain rfl := Option.some.inj hfa
          obtain rfl := Option.some.inj hfb
          exact hab

/-- C9 amended: the guest-service roster carries all four buckets; the two
player buckets are ordered by creation timestamp ascending, while the two
guest buckets are ordered by inviter id first and creation timestamp second
(the guest query's `ORDER BY gp.inviter_id, gp.created_at ASC`); the
attendance-service roster, used by the read endpoint and by
`registerAttendance` responses, carries only the two player buckets, equal to
those of the guest-service roster; and every entry sits in the bucket matching
its status. -/
theorem claim_C9_amended_roster_shape (db : Db) (g : Nat) :
    List.Sorted (· ≤ ·)
      ((getRosterWithGuests db g).confirmed.map (fun x => x.record.createdAt)) ∧
    List.Sorted (· ≤ ·)
      ((getRosterWithGuests db g).waiting.map (fun x => x.record.createdAt)) ∧
    List.Pairwise (fun x y => guestOrderLe x.guest y.guest)
      (getRosterWithGuests db g).guests.confirmed ∧
    List.Pairwise (fun x y => guestOrderLe x.guest y.guest)
      (getRosterWithGuests db g).guests.waiting ∧
    (getRoster db g).confirmed = (getRosterWithGuests db g).confirmed ∧
    (getRoster db g).waiting = (getRosterWithGuests db g).waiting ∧
    (∀ x ∈ (getRosterWithGuests db g).confirmed,
      x.record.status = AttendanceStatus.CONFIRMED ∨
      x.record.status = AttendanceStatus.LATE_CONFIRMED) ∧
    (∀ x ∈ (getRosterWithGuests db g).waiting,
      x.record.status = AttendanceStatus.WAITING) ∧
    (∀ x ∈ (getRosterWithGuests db g).guests.confirmed,
      x.guest.status = GuestStatus.CONFIRMED) ∧
    (∀ x ∈ (getRosterWithGuests db g).guests.waiting,
      x.guest.status = GuestStatus.WAITING) := by
  have hrows : (rosterRows db g).Pairwise attCreatedLe :=
    List.sorted_insertionSort attCreatedLe _
  have hjoin := joinPlayers_pairwise db _ hrows
  have hgrows : (guestRosterRows db g).Pairwise guestOrderLe :=
    List.sorted_insertionSort guestOrderLe _
  have hgjoin := joinInviters_pairwise db _ hgrows
  refine ⟨?_, ?_, ?_, ?_, rfl, rfl, ?_, ?_, ?_, ?_⟩
  · exact List.pairwise_map.mpr (List.Pairwise.sublist (List.filter_sublist _) hjoin)
  · exact List.pairwise_map.mpr (List.Pairwise.sublist (List.filter_sublist _) hjoin)
  · exact List.Pairwise.sublist (List.filter_sublist _) hgjoin
  · exact List.Pairwise.sublist (List.filter_sublist _) hgjoin
  · intro x hx
    have := (List.mem_filter.mp hx).2
    simpa using this
  · intro x hx
    have := (List.mem_filter.mp hx).2
    simpa using this
  · intro x hx
    have := (List.mem_filter.mp hx).2
    simpa using this
  · intro x hx
    have := (List.mem_filter.mp hx).2
    simpa using this

/-- C9 counterexample: on `dbGuestOrder` the confirmed-guest bucket comes back
ordered by inviter id, so its creation timestamps read [2, 1] — the bucket is
not ordered by creation timestamp ascending as the claim states. -/
theorem claim_C9_counterexample_guest_order :
    ((getRosterWithGuests dbGuestOrder 1).guests.confirmed.map
      (fun x => x.guest.createdAt)) = [2, 1] ∧
    ¬ List.Sorted (· ≤ ·)
      ((getRosterWithGuests dbGuestOrder 1).guests.confirmed.map
        (fun x => x.guest.createdAt)) := by
  constructor
  · decide
  · decide

end FootballGen
